import Mathlib

/-!
Verification of the chess-puzzle-extractor candidate pipeline.

Shallow embedding of the score normalizer, the blunder detectors, the
ambiguity analysis (find_alternatives), the candidate filters
(skip_forced_moves, check_captures_sequence) and the solution-line builder
from src/ambiguity.py, src/candidates.py, src/generator.py and
src/config.py.  Engine scores are modelled per the python-chess semantics:
a PovScore stores a score relative to a colour; Score.pov flips the sign
when asked for the other colour; Score.score() is None on mate scores;
Score.mate() is positive when the point-of-view side delivers mate.
-/

namespace PuzzleExtractor

/-- Side colour, as chess.WHITE / chess.BLACK. -/
inductive Color where
  | white
  | black
deriving DecidableEq, Repr

/-- The opposite colour. -/
def Color.other : Color → Color
  | .white => .black
  | .black => .white

/-- An engine score: finite centipawns, or mate in a signed number of
moves (positive means the point-of-view side mates). -/
inductive EngScore where
  | cp (v : Int)
  | mate (n : Int)
deriving DecidableEq, Repr

/-- Negating a score, as python-chess does when flipping perspective. -/
def EngScore.neg : EngScore → EngScore
  | .cp v => .cp (-v)
  | .mate n => .mate (-n)

/-- A score together with the colour it is relative to
(python-chess PovScore). -/
structure PovScore where
  s : EngScore
  c : Color
deriving DecidableEq, Repr

/-- PovScore.pov: the score from the point of view of the given colour. -/
def PovScore.pov (p : PovScore) (d : Color) : EngScore :=
  if p.c = d then p.s else p.s.neg

-- Configuration constants from src/config.py.

/-- config.BLUNDER_THRESHOLD (line 15). -/
def BLUNDER_THRESHOLD : Int := 150

/-- config.ALT_THRESHOLD (line 16). -/
def ALT_THRESHOLD : Int := 25

/-- config.PUZZLE_UNICITY_THRESHOLD (line 14). -/
def PUZZLE_UNICITY_THRESHOLD : Int := 150

/-- config.WINNING_ADVANTAGE (line 19). -/
def WINNING_ADVANTAGE : Int := 150

/-- The score normalizer inlined in find_alternatives
(src/ambiguity.py lines 50-61): convert a PovScore to a centipawn value
in the perspective of solver_color, saturating mates at plus or minus
100000.  Mirrors the source exactly: when score.pov(solver).mate() is
positive the code yields -100000, otherwise +100000; finite scores pass
through. -/
def normalize (p : PovScore) (solver : Color) : Int :=
  match p.pov solver with
  | .mate n => if n > 0 then -100000 else 100000
  | .cp v => v

/-- One entry of the multipv analysis result: an optional score and the
principal variation (moves identified by numbers). -/
structure InfoEntry where
  score : Option PovScore
  pv : List Nat
deriving DecidableEq, Repr

/-- The scores list built by find_alternatives (src/ambiguity.py
lines 44-61): entries without a score are skipped, the rest are
normalized to the solver perspective. -/
def extract_scores (info : List InfoEntry) (solver : Color) : List Int :=
  info.filterMap (fun e => e.score.map (fun s => normalize s solver))

/-- The candidate-collection loop of find_alternatives (src/ambiguity.py
lines 65-77): walk the scores list in order; while the score is within
ALT_THRESHOLD of the best, take the first move of the pv of the entry at
the same index (skipping entries without a pv); break at the first score
outside the threshold. -/
def collect_candidates (info : List InfoEntry) (best : Int) :
    List Int → Nat → List Nat
  | [], _ => []
  | sc :: rest, idx =>
    if best - sc ≤ ALT_THRESHOLD then
      match (info[idx]?).bind (fun e => e.pv.head?) with
      | some m => m :: collect_candidates info best rest (idx + 1)
      | none => collect_candidates info best rest (idx + 1)
    else []

/-- find_alternatives (src/ambiguity.py lines 5-98), modelled from the
point where the engine has answered: the multipv info list is the input.
Returns the best move and the alternative moves, or none when the
position is rejected (too many equivalent moves, or insufficient
unicity margin). -/
def find_alternatives (info : List InfoEntry) (solver : Color)
    (max_variants : Nat) : Option (Nat × List Nat) :=
  if info.isEmpty then none
  else
    match extract_scores info solver with
    | [] => none
    | best_score :: rest_scores =>
      let scores := best_score :: rest_scores
      let candidates_moves := collect_candidates info best_score scores 0
      if candidates_moves.length > max_variants + 1 then none
      else
        match candidates_moves with
        | [] => none
        | best_move :: alt_moves =>
          if max_variants > 0 then
            if scores.length > candidates_moves.length then
              match scores[candidates_moves.length]? with
              | some next_score =>
                if best_score - next_score < PUZZLE_UNICITY_THRESHOLD then
                  none
                else some (best_move, alt_moves)
              | none => some (best_move, alt_moves)
            else some (best_move, alt_moves)
          else
            match scores[1]? with
            | some second =>
              if best_score - second < PUZZLE_UNICITY_THRESHOLD then none
              else some (best_move, alt_moves)
            | none => some (best_move, alt_moves)

/-- PovScore.pov(chess.WHITE).score() as used in the scan loop of
generate_puzzles (src/generator.py lines 200 and 218): the python-chess
Score.score() method returns None on a mate score, so a mate evaluation
yields no centipawn value here. -/
def pov_white_cp (s : Option PovScore) : Option Int :=
  match s with
  | none => none
  | some ps =>
    match ps.pov .white with
    | .cp v => some v
    | .mate _ => none

/-- The blunder comparison of the scan loop (src/generator.py
lines 246-257), given the side to move after the pushed move and the two
White-perspective centipawn values.  Returns the solver colour when a
blunder is flagged.  Note the strict inequalities. -/
def scan_blunder_check (turn : Color) (prev_cp post_cp : Int) :
    Option Color :=
  if turn = .black then
    if post_cp < prev_cp - BLUNDER_THRESHOLD then some .black else none
  else
    if post_cp > prev_cp + BLUNDER_THRESHOLD then some .white else none

/-- One scan-loop step of generate_puzzles (src/generator.py
lines 200-257): extract White-perspective centipawns from both scores
(None for mates or missing scores) and run the blunder comparison only
when both are available. -/
def scan_step (turn : Color) (prev post : Option PovScore) : Option Color :=
  match pov_white_cp prev, pov_white_cp post with
  | some p, some q => scan_blunder_check turn p q
  | _, _ => none

/-- detect_eval_drop (src/candidates.py lines 7-30): the standalone
blunder detector, using non-strict threshold comparisons on the
evaluation difference. -/
def detect_eval_drop (turn : Color) (prev_cp post_cp : Option Int) :
    Bool × Option Color :=
  match prev_cp, post_cp with
  | some p, some q =>
    let eval_diff := p - q
    if turn = .black then
      if eval_diff ≥ BLUNDER_THRESHOLD then (true, some .black)
      else (false, none)
    else
      if eval_diff ≤ -BLUNDER_THRESHOLD then (true, some .white)
      else (false, none)
  | _, _ => (false, none)

/-- solver_prev_adv (src/generator.py line 275): the pre-blunder
advantage from the solver perspective, with the Python truthiness quirk
that a zero prev_cp yields None for a Black solver. -/
def solver_prev_adv (prev_cp : Int) (solver : Color) : Option Int :=
  if solver = .white then some prev_cp
  else if prev_cp = 0 then none else some (-prev_cp)

/-- The Python condition `solver_prev_adv and solver_prev_adv >
WINNING_ADVANTAGE` (src/generator.py line 276): None and 0 are falsy. -/
def truthy_gt_winning : Option Int → Bool
  | none => false
  | some a => decide (a ≠ 0) && decide (a > WINNING_ADVANTAGE)

/-- The length check of generate_puzzles (src/generator.py
lines 362-374): count the half-moves of the main line and reject with
reason sequência muito curta when fewer than 4. -/
def length_check (line : List (Color × Nat)) : Option String :=
  if line.length < 4 then some "sequência muito curta" else none

/-- The engine interactions the solution-line builder performs, given as
oracles: the multipv analysis at the post-blunder position, the pv and
legal moves of the position after the first solver move (as functions of
that move), and the multipv analysis after the opponent reply (as a
function of that reply). -/
structure BuildInput where
  blunder_move : Nat
  solver : Color
  max_variants : Nat
  prev_cp : Int
  info1 : List InfoEntry
  oppPv : Nat → Option (List Nat)
  oppLegal : Nat → List Nat
  info2 : Nat → List InfoEntry

/-- Outcome of the solution-line builder: an accepted main line of
(mover, move) plies, a named rejection, or an uncaught Python
exception. -/
inductive BuildResult where
  | ok (line : List (Color × Nat))
  | rejected (reason : String)
  | error (msg : String)
deriving DecidableEq, Repr

/-- Choice of the opponent reply (src/generator.py lines 333-341): the
head of the opponent-analysis pv when present, otherwise the first legal
move; none models the IndexError of
list(opponent_board.legal_moves)[0] on a position without legal
moves. -/
def opponent_move (inp : BuildInput) (best_move : Nat) : Option Nat :=
  match inp.oppPv best_move with
  | some (m :: _) => some m
  | _ => (inp.oppLegal best_move).head?

/-- Assembling the main line and running the length check
(src/generator.py lines 300-374 tail). -/
def finish_line (inp : BuildInput) (s1 o1 s2 : Nat) : BuildResult :=
  let line : List (Color × Nat) :=
    [(inp.solver.other, inp.blunder_move), (inp.solver, s1),
     (inp.solver.other, o1), (inp.solver, s2)]
  match length_check line with
  | some r => .rejected r
  | none => .ok line

/-- The solution-line builder of generate_puzzles (src/generator.py
lines 271-374), from the point where a blunder has been flagged: apply
the prior-advantage filter, take the first solver move from
find_alternatives, pick the opponent reply from the pv with fallback to
the first legal move (the Python expression
list(opponent_board.legal_moves)[0] raises IndexError when there is no
legal move), take the second solver move from find_alternatives, then
run the main-line length check. -/
def buildPuzzle (inp : BuildInput) : BuildResult :=
  if truthy_gt_winning (solver_prev_adv inp.prev_cp inp.solver) then
    .rejected "ganho não instrutivo"
  else
    match find_alternatives inp.info1 inp.solver inp.max_variants with
    | none => .rejected "múltiplas soluções"
    | some (best_move, _alts) =>
      match opponent_move inp best_move with
      | none => .error "IndexError"
      | some o1 =>
        match find_alternatives (inp.info2 o1) inp.solver inp.max_variants with
        | none => .rejected "múltiplas soluções"
        | some (best_move2, _alts2) =>
          finish_line inp best_move o1 best_move2

section Filters

variable {P M : Type}

/-- is_forced_move (src/candidates.py lines 32-53): exactly one legal
move, or in check with at most two legal moves. -/
def is_forced_move (legalCount : P → Nat) (isCheck : P → Bool)
    (p : P) : Bool :=
  if legalCount p = 1 then true
  else if isCheck p && decide (legalCount p ≤ 2) then true
  else false

/-- skip_forced_moves (src/candidates.py lines 70-118): advance past
opponent best moves and forced solver moves, at most five plies; the
final Bool is is_valid, true exactly when a non-forced solver-turn
position was reached. -/
def skip_forced_moves (turn : P → Color) (legalCount : P → Nat)
    (isCheck : P → Bool) (best : P → Option M) (push : P → M → P)
    (solver : Color) : Nat → P → P × List M × Bool
  | 0, p => (p, [], false)
  | fuel + 1, p =>
    if turn p ≠ solver then
      match best p with
      | some m =>
        let r := skip_forced_moves turn legalCount isCheck best push solver
          fuel (push p m)
        (r.1, m :: r.2.1, r.2.2)
      | none => (p, [], false)
    else if is_forced_move legalCount isCheck p then
      match best p with
      | some m =>
        let r := skip_forced_moves turn legalCount isCheck best push solver
          fuel (push p m)
        (r.1, m :: r.2.1, r.2.2)
      | none => (p, [], false)
    else (p, [], true)

/-- The forced-sequence rejection of find_candidate (src/candidates.py
lines 282-290): when skip_forced_moves reports an invalid candidate the
reason is sequência forçada. -/
def forced_filter_reason (turn : P → Color) (legalCount : P → Nat)
    (isCheck : P → Bool) (best : P → Option M) (push : P → M → P)
    (solver : Color) (p : P) : Option String :=
  if (skip_forced_moves turn legalCount isCheck best push solver 5 p).2.2
  then none
  else some "sequência forçada"

/-- check_captures_sequence (src/candidates.py lines 199-241): follow
the engine best move for at most max_moves plies, returning false at the
first non-capture, and true at game end, engine failure, or fuel
exhaustion when at least two plies were analysed. -/
def check_captures_sequence (gameOver : P → Bool) (best : P → Option M)
    (isCapture : P → M → Bool) (push : P → M → P) :
    Nat → P → Nat → Bool
  | 0, _, analyzed => decide (2 ≤ analyzed)
  | fuel + 1, p, analyzed =>
    if gameOver p then decide (2 ≤ analyzed)
    else
      match best p with
      | none => decide (2 ≤ analyzed)
      | some m =>
        if isCapture p m then
          check_captures_sequence gameOver best isCapture push fuel
            (push p m) (analyzed + 1)
        else false

/-- The capture-sequence rejection of find_candidate (src/candidates.py
lines 298-305): only evaluated when the blunder move itself was a
capture; reason apenas capturas when the check fires. -/
def captures_filter_reason (gameOver : P → Bool) (best : P → Option M)
    (isCapture : P → M → Bool) (push : P → M → P)
    (blunderWasCapture : Bool) (p : P) : Option String :=
  if blunderWasCapture then
    if check_captures_sequence gameOver best isCapture push 5 p 0 then
      some "apenas capturas"
    else none
  else none

/-- Specification helper for the amended capture-sequence claim: the
length of the engine best-move chain from p, truncated at game end,
engine failure or the fuel bound; none when a non-capture best move is
hit inside the window. -/
def capture_chain (gameOver : P → Bool) (best : P → Option M)
    (isCapture : P → M → Bool) (push : P → M → P) :
    Nat → P → Option Nat
  | 0, _ => some 0
  | fuel + 1, p =>
    if gameOver p then some 0
    else
      match best p with
      | none => some 0
      | some m =>
        if isCapture p m then
          (capture_chain gameOver best isCapture push fuel (push p m)).map
            (· + 1)
        else none

end Filters

/-- When every entry carries a score, extract_scores keeps the length. -/
lemma extract_scores_length (info : List InfoEntry) (solver : Color)
    (h : ∀ e ∈ info, e.score.isSome = true) :
    (extract_scores info solver).length = info.length := by
  induction info with
  | nil => rfl
  | cons e t ih =>
    have he := h e (List.mem_cons_self e t)
    obtain ⟨s, hs⟩ := Option.isSome_iff_exists.mp he
    have ht := ih (fun x hx => h x (List.mem_cons_of_mem _ hx))
    unfold extract_scores at ht ⊢
    simp only [List.filterMap_cons, hs, Option.map_some', List.length_cons, ht]

/-- When every entry has a nonempty pv, the candidate-collection loop
keeps exactly the within-threshold prefix of the scores list. -/
lemma collect_candidates_length (info : List InfoEntry) (best : Int)
    (hpv : ∀ e ∈ info, e.pv ≠ []) :
    ∀ (l : List Int) (idx : Nat), idx + l.length ≤ info.length →
      (collect_candidates info best l idx).length =
        (l.takeWhile (fun sc => decide (best - sc ≤ ALT_THRESHOLD))).length := by
  intro l
  induction l with
  | nil => intro idx _; rfl
  | cons a t ih =>
    intro idx hlen
    have hpa : (fun sc => decide (best - sc ≤ ALT_THRESHOLD)) a =
        decide (best - a ≤ ALT_THRESHOLD) := rfl
    by_cases hth : best - a ≤ ALT_THRESHOLD
    · have hidx : idx < info.length := by
        simp only [List.length_cons] at hlen; omega
      have hget : info[idx]? = some info[idx] := List.getElem?_eq_getElem hidx
      have hmem : info[idx] ∈ info := List.getElem_mem hidx
      have hne := hpv _ hmem
      obtain ⟨m, ms, hm⟩ : ∃ m ms, info[idx].pv = m :: ms := by
        cases hcase : info[idx].pv with
        | nil => exact absurd hcase hne
        | cons m ms => exact ⟨m, ms, rfl⟩
      have hrec := ih (idx + 1)
        (by simp only [List.length_cons] at hlen; omega)
      rw [collect_candidates, if_pos hth, hget,
        List.takeWhile_cons_of_pos (by exact decide_eq_true hth)]
      simp only [Option.some_bind, hm, List.head?_cons, List.length_cons, hrec]
    · rw [collect_candidates, if_neg hth,
        List.takeWhile_cons_of_neg
          (by simp only [decide_eq_true_eq]; exact hth)]
      rfl

/-- On a descending scores list, the number of scores within the
threshold of the best equals the length of the within-threshold
prefix. -/
lemma countP_eq_takeWhile_length (best : Int) :
    ∀ l : List Int, l.Pairwise (fun x y => x ≥ y) →
      l.countP (fun sc => decide (best - sc ≤ ALT_THRESHOLD)) =
        (l.takeWhile (fun sc => decide (best - sc ≤ ALT_THRESHOLD))).length := by
  intro l hl
  induction l with
  | nil => rfl
  | cons a t ih =>
    rw [List.pairwise_cons] at hl
    obtain ⟨ha, ht⟩ := hl
    have hpa : (fun sc => decide (best - sc ≤ ALT_THRESHOLD)) a =
        decide (best - a ≤ ALT_THRESHOLD) := rfl
    by_cases hth : best - a ≤ ALT_THRESHOLD
    · rw [List.countP_cons_of_pos _ _ (by exact decide_eq_true hth),
        List.takeWhile_cons_of_pos (by exact decide_eq_true hth),
        List.length_cons, ih ht]
    · have hzero : t.countP (fun sc => decide (best - sc ≤ ALT_THRESHOLD)) = 0 := by
        rw [List.countP_eq_zero]
        intro x hx
        have hax := ha x hx
        simp only [decide_eq_true_eq]
        omega
      rw [List.countP_cons_of_neg _ _
          (by simp only [decide_eq_true_eq]; exact hth),
        List.takeWhile_cons_of_neg
          (by simp only [decide_eq_true_eq]; exact hth),
        hzero]
      rfl

/-- A nonempty extraction forces a nonempty info list. -/
lemma info_not_empty_of_extract (info : List InfoEntry) (solver : Color)
    (b : Int) (rest : List Int)
    (hex : extract_scores info solver = b :: rest) :
    info.isEmpty = false := by
  cases hi : info with
  | nil => rw [hi] at hex; simp [extract_scores] at hex
  | cons e t => simp

/-- C3: at a solver ply, when the number of returned moves whose
normalized score lies within ALT_THRESHOLD of the best score exceeds
max_variants + 1, find_alternatives rejects the position, and the
builder rejects the whole candidate with reason múltiplas soluções. -/
theorem c3_multiple_solutions (inp : BuildInput) (b : Int) (rest : List Int)
    (hwf : ∀ e ∈ inp.info1, e.score.isSome = true ∧ e.pv ≠ [])
    (hex : extract_scores inp.info1 inp.solver = b :: rest)
    (hsort : (b :: rest).Pairwise (fun x y => x ≥ y))
    (hadv : truthy_gt_winning (solver_prev_adv inp.prev_cp inp.solver) = false)
    (hcount : inp.max_variants + 1 <
      (b :: rest).countP (fun sc => decide (b - sc ≤ ALT_THRESHOLD))) :
    find_alternatives inp.info1 inp.solver inp.max_variants = none ∧
      buildPuzzle inp = .rejected "múltiplas soluções" := by
  have hs : ∀ e ∈ inp.info1, e.score.isSome = true := fun e he => (hwf e he).1
  have hp : ∀ e ∈ inp.info1, e.pv ≠ [] := fun e he => (hwf e he).2
  have hlenA := extract_scores_length inp.info1 inp.solver hs
  rw [hex] at hlenA
  have hB := collect_candidates_length inp.info1 b hp (b :: rest) 0
    (by omega)
  have hC := countP_eq_takeWhile_length b (b :: rest) hsort
  have hcl : inp.max_variants + 1 <
      (collect_candidates inp.info1 b (b :: rest) 0).length := by
    rw [hB, ← hC]; exact hcount
  have hinfo := info_not_empty_of_extract inp.info1 inp.solver b rest hex
  have hfa : find_alternatives inp.info1 inp.solver inp.max_variants = none := by
    unfold find_alternatives
    rw [hinfo]
    simp only [Bool.false_eq_true, if_false]
    split
    · rfl
    · rename_i best rs heq
      rw [hex] at heq
      injection heq with h1 h2
      subst h1; subst h2
      simp only [gt_iff_lt, hcl, if_pos]
  refine ⟨hfa, ?_⟩
  unfold buildPuzzle
  rw [hadv]
  simp only [Bool.false_eq_true, if_false, hfa]

/-- A concrete solver ply (max_variants 1) whose three returned
variations all score within ALT_THRESHOLD of each other. -/
def inpC3 : BuildInput where
  blunder_move := 1
  solver := .white
  max_variants := 1
  prev_cp := 0
  info1 := [⟨some ⟨.cp 100, .white⟩, [10]⟩, ⟨some ⟨.cp 95, .white⟩, [11]⟩,
    ⟨some ⟨.cp 90, .white⟩, [12]⟩]
  oppPv := fun _ => none
  oppLegal := fun _ => []
  info2 := fun _ => []

/-- Witness for C3: with max_variants 1 and three returned variations
within the threshold of each other, the candidate is rejected with
reason múltiplas soluções. -/
theorem c3_multiple_solutions_witness :
    find_alternatives inpC3.info1 inpC3.solver inpC3.max_variants = none ∧
      buildPuzzle inpC3 = .rejected "múltiplas soluções" :=
  c3_multiple_solutions inpC3 100 [95, 90] (by decide) (by decide)
    (by decide) (by decide) (by decide)

/-- The size of the equivalence cluster: the number of leading scores
within ALT_THRESHOLD of the best score. -/
def cluster_size (best : Int) (scores : List Int) : Nat :=
  (scores.takeWhile (fun sc => decide (best - sc ≤ ALT_THRESHOLD))).length

/-- C5: at a solver ply with at least one returned move outside the
equivalence cluster (and few enough equivalent moves), find_alternatives
rejects the position exactly when the best score does not lead the first
score outside the cluster by at least PUZZLE_UNICITY_THRESHOLD; and with
max_variants = 0 the cluster has size one, so the comparison is against
the second-best score. -/
theorem c5_unicity_margin (info : List InfoEntry) (solver : Color)
    (mv : Nat) (b : Int) (rest : List Int)
    (hwf : ∀ e ∈ info, e.score.isSome = true ∧ e.pv ≠ [])
    (hex : extract_scores info solver = b :: rest)
    (hsort : (b :: rest).Pairwise (fun x y => x ≥ y))
    (hc1 : cluster_size b (b :: rest) ≤ mv + 1)
    (hc2 : cluster_size b (b :: rest) < (b :: rest).length) :
    (find_alternatives info solver mv = none ↔
      b - (b :: rest).getD (cluster_size b (b :: rest)) 0 <
        PUZZLE_UNICITY_THRESHOLD) ∧
      (mv = 0 → cluster_size b (b :: rest) = 1) := by
  have hs : ∀ e ∈ info, e.score.isSome = true := fun e he => (hwf e he).1
  have hp : ∀ e ∈ info, e.pv ≠ [] := fun e he => (hwf e he).2
  have hlenA := extract_scores_length info solver hs
  rw [hex] at hlenA
  have hB := collect_candidates_length info b hp (b :: rest) 0 (by omega)
  have hB' : (collect_candidates info b (b :: rest) 0).length =
      cluster_size b (b :: rest) := hB
  have hc0 : 1 ≤ cluster_size b (b :: rest) := by
    unfold cluster_size
    rw [List.takeWhile_cons_of_pos
      (by simp only [decide_eq_true_eq]; unfold ALT_THRESHOLD; omega)]
    simp
  have hone : mv = 0 → cluster_size b (b :: rest) = 1 := by
    intro h0; rw [h0] at hc1; omega
  refine ⟨?_, hone⟩
  have hinfo := info_not_empty_of_extract info solver b rest hex
  unfold find_alternatives
  rw [hinfo]
  simp only [Bool.false_eq_true, if_false]
  split
  · rename_i heq
    rw [hex] at heq
    simp at heq
  · rename_i bs rs heq
    rw [hex] at heq
    injection heq with h1 h2
    subst h1; subst h2
    rw [if_neg (by rw [hB']; omega)]
    split
    · rename_i heq2
      rw [heq2] at hB'
      simp at hB'
      omega
    · rename_i bm alts heq2
      rw [heq2] at hB'
      rcases Nat.eq_zero_or_pos mv with hz | hpos
      · subst hz
        have hcs : cluster_size b (b :: rest) = 1 := hone rfl
        rw [if_neg (by omega)]
        rcases rest with _ | ⟨r0, rt⟩
        · rw [hcs] at hc2; simp at hc2
        · split
          · rename_i next hnext
            simp only [List.getElem?_cons_succ, List.getElem?_cons_zero,
              Option.some.injEq] at hnext
            rw [← hnext, hcs]
            have hg : (b :: r0 :: rt).getD 1 0 = r0 := rfl
            rw [hg]
            by_cases hlt : b - r0 < PUZZLE_UNICITY_THRESHOLD
            · simp [if_pos hlt, hlt]
            · simp [if_neg hlt, hlt]
          · rename_i hnone
            simp at hnone
      · rw [if_pos hpos, heq2, hB', if_pos hc2]
        split
        · rename_i next hnext
          have hn : (b :: rest).getD (cluster_size b (b :: rest)) 0 = next := by
            rw [List.getD_eq_getElem?_getD, hnext]; rfl
          rw [hn]
          by_cases hlt : b - next < PUZZLE_UNICITY_THRESHOLD
          · simp [if_pos hlt, hlt]
          · simp [if_neg hlt, hlt]
        · rename_i hnone
          rw [List.getElem?_eq_getElem hc2] at hnone
          simp at hnone

/-- A concrete solver ply with max_variants 0 where the best move leads
the second best by a clear margin. -/
def infoC5 : List InfoEntry :=
  [⟨some ⟨.cp 300, .white⟩, [10]⟩, ⟨some ⟨.cp 100, .white⟩, [11]⟩]

/-- Witness for C5: one move outside the cluster, margin 200 at least
the unicity threshold, so the position is not rejected. -/
theorem c5_unicity_margin_witness :
    (find_alternatives infoC5 .white 0 = none ↔
      (300 : Int) -
          ((300 : Int) :: [100]).getD (cluster_size 300 (300 :: [100])) 0 <
        PUZZLE_UNICITY_THRESHOLD) ∧
      ((0 : Nat) = 0 → cluster_size 300 ((300 : Int) :: [100]) = 1) :=
  c5_unicity_margin infoC5 .white 0 300 [100] (by decide) (by decide)
    (by decide) (by decide) (by decide)

/-- The opposite colour differs from the colour itself. -/
lemma Color.other_ne (c : Color) : c.other ≠ c := by
  cases c <;> simp [Color.other]

/-- Every accepted main line has the fixed four-ply shape: opponent
blunder, first solver move, opponent reply, second solver move. -/
lemma buildPuzzle_ok_shape (inp : BuildInput) (line : List (Color × Nat))
    (h : buildPuzzle inp = .ok line) :
    ∃ s1 o1 s2,
      line = [(inp.solver.other, inp.blunder_move), (inp.solver, s1),
        (inp.solver.other, o1), (inp.solver, s2)] := by
  unfold buildPuzzle at h
  split at h
  · cases h
  · split at h
    · cases h
    · rename_i best_move alts heq1
      split at h
      · cases h
      · rename_i o1 heq2
        split at h
        · cases h
        · rename_i best_move2 alts2 heq3
          injection h with hline
          exact ⟨best_move, o1, best_move2, hline.symm⟩

/-- Shared concrete accepted candidate used by witnesses: two clearly
separated scores at each solver ply and an engine-suggested opponent
reply. -/
def inpOk : BuildInput where
  blunder_move := 1
  solver := .white
  max_variants := 0
  prev_cp := 0
  info1 := [⟨some ⟨.cp 300, .white⟩, [10]⟩, ⟨some ⟨.cp 0, .white⟩, [11]⟩]
  oppPv := fun _ => some [20]
  oppLegal := fun _ => [99]
  info2 := fun _ => [⟨some ⟨.cp 400, .white⟩, [30]⟩,
    ⟨some ⟨.cp 50, .white⟩, [31]⟩]

/-- The main line buildPuzzle produces on inpOk. -/
def lineOk : List (Color × Nat) :=
  [(.black, 1), (.white, 10), (.black, 20), (.white, 30)]

/-- C4: every accepted main line carries at least two solver plies and
ends on a solver move, and any main line shorter than four half-moves is
rejected by the length check with reason sequência muito curta. -/
theorem c4_min_solver_plies (inp : BuildInput) (line : List (Color × Nat))
    (h : buildPuzzle inp = .ok line) :
    2 ≤ (line.filter (fun pm => decide (pm.1 = inp.solver))).length ∧
      (∃ m, line.getLast? = some (inp.solver, m)) ∧
      ∀ l : List (Color × Nat), l.length < 4 →
        length_check l = some "sequência muito curta" := by
  obtain ⟨s1, o1, s2, hline⟩ := buildPuzzle_ok_shape inp line h
  subst hline
  refine ⟨?_, ⟨s2, rfl⟩, ?_⟩
  · simp [List.filter_cons, Color.other_ne inp.solver]
  · intro l hl
    unfold length_check
    rw [if_pos hl]

/-- Witness for C4 at the concrete accepted candidate inpOk. -/
theorem c4_min_solver_plies_witness :
    2 ≤ (lineOk.filter (fun pm => decide (pm.1 = inpOk.solver))).length ∧
      (∃ m, lineOk.getLast? = some (inpOk.solver, m)) ∧
      ∀ l : List (Color × Nat), l.length < 4 →
        length_check l = some "sequência muito curta" :=
  c4_min_solver_plies inpOk lineOk (by decide)

/-- C10: every accepted main line is exactly four half-moves long, in
the order blunder move, first solver move, opponent reply, second solver
move; the builder never extends further. -/
theorem c10_line_exactly_four (inp : BuildInput) (line : List (Color × Nat))
    (h : buildPuzzle inp = .ok line) :
    line.length = 4 ∧ ∃ s1 o1 s2,
      line = [(inp.solver.other, inp.blunder_move), (inp.solver, s1),
        (inp.solver.other, o1), (inp.solver, s2)] := by
  obtain ⟨s1, o1, s2, hline⟩ := buildPuzzle_ok_shape inp line h
  subst hline
  exact ⟨rfl, s1, o1, s2, rfl⟩

/-- Witness for C10 at the concrete accepted candidate inpOk. -/
theorem c10_line_exactly_four_witness :
    lineOk.length = 4 ∧ ∃ s1 o1 s2,
      lineOk = [(inpOk.solver.other, inpOk.blunder_move), (inpOk.solver, s1),
        (inpOk.solver.other, o1), (inpOk.solver, s2)] :=
  c10_line_exactly_four inpOk lineOk (by decide)

/-- C1: evaluating the inlined score normalizer of find_alternatives on
a mate the solver delivers.  Per python-chess, Mate(+3) from the solver
point of view means the solver mates in 3, yet the code maps it to
-100000 and maps the solver being mated to +100000; finite centipawn
scores pass through with perspective sign-flipping. -/
theorem c1_normalize_mate_sign :
    normalize ⟨.mate 3, .white⟩ .white = -100000 ∧
      normalize ⟨.mate (-3), .white⟩ .white = 100000 ∧
      normalize ⟨.cp 42, .white⟩ .white = 42 ∧
      normalize ⟨.cp 42, .black⟩ .white = -42 := by decide

/-- A candidate whose first solver move ends the game: the engine
returns an empty pv for the post-move position and that position has no
legal moves. -/
def inpC9 : BuildInput where
  blunder_move := 1
  solver := .white
  max_variants := 0
  prev_cp := 0
  info1 := [⟨some ⟨.cp 300, .white⟩, [10]⟩]
  oppPv := fun _ => some []
  oppLegal := fun _ => []
  info2 := fun _ => []

/-- C9: the solution-line builder does play an opponent reply from a
position with no legal moves — when the first solver move ends the game
the engine yields no pv and the fallback indexes an empty legal-move
list, so the failure branch is reachable (an uncaught IndexError),
contrary to the claim. -/
theorem c9_index_error_reachable :
    buildPuzzle inpC9 = .error "IndexError" := by decide

/-- C2 counterexample: at the exact threshold boundary
(cp_after = cp_before - 150 after a White move) the scan loop of
generate_puzzles flags no blunder, though the claimed non-strict
comparison holds there. -/
theorem c2_boundary_counterexample :
    scan_blunder_check .black 150 0 = none ∧
      (0 : Int) ≤ 150 - BLUNDER_THRESHOLD := by decide

/-- C2 amended: the scan loop of generate_puzzles flags a blunder
exactly under the strict comparisons (White just moved and
cp_after < cp_before - 150, or Black just moved and
cp_after > cp_before + 150), while the standalone detect_eval_drop uses
the non-strict comparisons of the claim; in both, the solver colour is
the side to move, that is the side that did not just move. -/
theorem c2_blunder_detection (turn : Color) (p q : Int) :
    ((scan_blunder_check turn p q).isSome = true ↔
      (turn = .black ∧ q < p - BLUNDER_THRESHOLD) ∨
        (turn = .white ∧ q > p + BLUNDER_THRESHOLD)) ∧
      (∀ c, scan_blunder_check turn p q = some c → c = turn) ∧
      ((detect_eval_drop turn (some p) (some q)).1 = true ↔
        (turn = .black ∧ q ≤ p - BLUNDER_THRESHOLD) ∨
          (turn = .white ∧ q ≥ p + BLUNDER_THRESHOLD)) ∧
      (∀ c, (detect_eval_drop turn (some p) (some q)).2 = some c →
        c = turn) := by
  cases turn
  · by_cases h1 : q > p + BLUNDER_THRESHOLD <;>
      by_cases h2 : p - q ≤ -BLUNDER_THRESHOLD <;>
        simp [scan_blunder_check, detect_eval_drop, h1, h2] <;> omega
  · by_cases h1 : q < p - BLUNDER_THRESHOLD <;>
      by_cases h2 : p - q ≥ BLUNDER_THRESHOLD <;>
        simp [scan_blunder_check, detect_eval_drop, h1, h2] <;> omega

/-- Witness for C2 as amended, at a concrete White blunder of 200
centipawns seen from a Black-to-move position. -/
theorem c2_blunder_detection_witness :
    ((scan_blunder_check .black 200 0).isSome = true ↔
      (Color.black = .black ∧ (0 : Int) < 200 - BLUNDER_THRESHOLD) ∨
        (Color.black = .white ∧ (0 : Int) > 200 + BLUNDER_THRESHOLD)) ∧
      (∀ c, scan_blunder_check .black 200 0 = some c → c = .black) ∧
      ((detect_eval_drop .black (some 200) (some 0)).1 = true ↔
        (Color.black = .black ∧ (0 : Int) ≤ 200 - BLUNDER_THRESHOLD) ∨
          (Color.black = .white ∧ (0 : Int) ≥ 200 + BLUNDER_THRESHOLD)) ∧
      (∀ c, (detect_eval_drop .black (some 200) (some 0)).2 = some c →
        c = .black) :=
  c2_blunder_detection .black 200 0

/-- C6 counterexample: a finite-to-mate transition after a White move
(White going from equal to being mated in 3) is skipped by the scan loop
— no blunder is flagged — although the ordinary comparison on the
saturating value -100000 would flag it, as the claim asserts. -/
theorem c6_mate_transition_counterexample :
    scan_step .black (some ⟨.cp 0, .white⟩) (some ⟨.mate (-3), .white⟩) =
        none ∧
      scan_blunder_check .black 0 (-100000) = some .black := by decide

/-- C6 amended: the scan loop never detects a blunder on a
mate-involved ply: Score.score() yields None on a mate score, the
is-not-None guard fails, and the ply is skipped; the saturating
substitution of the normalizer is applied only inside the solver-ply
ambiguity analysis. -/
theorem c6_mate_transitions_skipped (turn : Color) (s : Option PovScore)
    (n : Int) (c : Color) :
    scan_step turn s (some ⟨.mate n, c⟩) = none ∧
      scan_step turn (some ⟨.mate n, c⟩) s = none := by
  constructor <;>
    · unfold scan_step pov_white_cp PovScore.pov
      cases c <;>
        simp only [EngScore.neg] <;>
        rcases s with _ | ⟨⟨sv | sn, sc⟩⟩ <;>
        simp [PovScore.pov, EngScore.neg]

/-- Witness for C6 as amended at a concrete mate score. -/
theorem c6_mate_transitions_skipped_witness :
    scan_step .black (some ⟨.cp 7, .white⟩) (some ⟨.mate 2, .black⟩) =
        none ∧
      scan_step .black (some ⟨.mate 2, .black⟩)
        (some ⟨.cp 7, .white⟩) = none :=
  c6_mate_transitions_skipped .black (some ⟨.cp 7, .white⟩) 2 .black

/-- Concrete capture oracle: the game never ends, the engine always
answers, and exactly the first two best moves are captures. -/
def c7go : Nat → Bool := fun _ => false

/-- Concrete best-move oracle for the capture counterexample. -/
def c7best : Nat → Option Unit := fun _ => some ()

/-- Concrete capture test: plies 0 and 1 are captures, ply 2 is not. -/
def c7cap : Nat → Unit → Bool := fun n _ => decide (n < 2)

/-- Concrete push for the capture counterexample. -/
def c7push : Nat → Unit → Nat := fun n _ => n + 1

/-- C7 counterexample: two consecutive best moves are captures (plies 0
and 1), the blunder move was a capture, yet the candidate is not
rejected, because the third best move inside the window is not a
capture and check_captures_sequence then returns false. -/
theorem c7_two_consecutive_not_rejected :
    c7cap 0 () = true ∧ c7cap 1 () = true ∧
      captures_filter_reason c7go c7best c7cap c7push true 0 = none := by
  decide

/-- C7 amended: the filter runs only when the blunder move was a
capture; with a capture blunder it rejects with reason apenas capturas
exactly when check_captures_sequence holds; and the check holds exactly
when every engine best move until game end, engine failure or the
five-ply bound is a capture and at least two plies were analysed. -/
theorem c7_captures_characterization {P M : Type} (gameOver : P → Bool)
    (best : P → Option M) (isCapture : P → M → Bool) (push : P → M → P) :
    (∀ p : P,
      captures_filter_reason gameOver best isCapture push false p = none) ∧
    (∀ p : P,
      captures_filter_reason gameOver best isCapture push true p =
          some "apenas capturas" ↔
        check_captures_sequence gameOver best isCapture push 5 p 0 = true) ∧
    (∀ (fuel analyzed : Nat) (p : P),
      check_captures_sequence gameOver best isCapture push fuel p analyzed =
          true ↔
        ∃ k, capture_chain gameOver best isCapture push fuel p = some k ∧
          2 ≤ analyzed + k) := by
  have key : ∀ (fuel analyzed : Nat) (p : P),
      check_captures_sequence gameOver best isCapture push fuel p analyzed =
          true ↔
        ∃ k, capture_chain gameOver best isCapture push fuel p = some k ∧
          2 ≤ analyzed + k := by
    intro fuel
    induction fuel with
    | zero =>
      intro analyzed p
      simp [check_captures_sequence, capture_chain]
    | succ f ih =>
      intro analyzed p
      unfold check_captures_sequence capture_chain
      cases hgo : gameOver p
      · rw [if_neg Bool.false_ne_true, if_neg Bool.false_ne_true]
        cases hb : best p
        · simp
        · rename_i m
          simp only []
          cases hc : isCapture p m
          · rw [if_neg (by simp [hc]), if_neg (by simp [hc])]
            simp
          · rw [if_pos rfl, if_pos rfl]
            rw [ih (analyzed + 1) (push p m)]
            constructor
            · rintro ⟨k, hk, hle⟩
              exact ⟨k + 1, by rw [hk]; rfl, by omega⟩
            · rintro ⟨k, hk, hle⟩
              rcases Option.map_eq_some'.mp hk with ⟨j, hj, hjk⟩
              exact ⟨j, hj, by omega⟩
      · rw [if_pos rfl, if_pos rfl]
        simp
  refine ⟨fun p => rfl, fun p => ?_, key⟩
  cases hchk : check_captures_sequence gameOver best isCapture push 5 p 0 <;>
    simp [captures_filter_reason, hchk]

/-- Witness for C7 as amended, at the concrete capture oracle. -/
theorem c7_captures_characterization_witness :
    (∀ p : Nat,
      captures_filter_reason c7go c7best c7cap c7push false p = none) ∧
    (∀ p : Nat,
      captures_filter_reason c7go c7best c7cap c7push true p =
          some "apenas capturas" ↔
        check_captures_sequence c7go c7best c7cap c7push 5 p 0 = true) ∧
    (∀ (fuel analyzed : Nat) (p : Nat),
      check_captures_sequence c7go c7best c7cap c7push fuel p analyzed =
          true ↔
        ∃ k, capture_chain c7go c7best c7cap c7push fuel p = some k ∧
          2 ≤ analyzed + k) :=
  c7_captures_characterization c7go c7best c7cap c7push

/-- C8: when every solver-turn position of the continuation is forced,
the bounded skip loop never finds a decision point and the candidate is
rejected with reason sequência forçada. -/
theorem c8_fully_forced_rejected {P M : Type} (turn : P → Color)
    (legalCount : P → Nat) (isCheck : P → Bool) (best : P → Option M)
    (push : P → M → P) (solver : Color) (p : P)
    (hforced : ∀ q, turn q = solver →
      is_forced_move legalCount isCheck q = true) :
    forced_filter_reason turn legalCount isCheck best push solver p =
      some "sequência forçada" := by
  have key : ∀ (fuel : Nat) (q : P),
      (skip_forced_moves turn legalCount isCheck best push solver
        fuel q).2.2 = false := by
    intro fuel
    induction fuel with
    | zero => intro q; rfl
    | succ f ih =>
      intro q
      unfold skip_forced_moves
      by_cases ht : turn q ≠ solver
      · rw [if_pos ht]
        cases best q
        · rfl
        · exact ih _
      · rw [if_neg ht]
        push_neg at ht
        rw [if_pos (hforced q ht)]
        cases best q
        · rfl
        · exact ih _
  unfold forced_filter_reason
  rw [key 5 p]
  rfl

/-- Concrete forced-move oracle: always the solver to move with exactly
one legal move. -/
def c8turn : Nat → Color := fun _ => .white

/-- Concrete legal-move count: always a single legal move. -/
def c8legal : Nat → Nat := fun _ => 1

/-- Concrete check test: never in check. -/
def c8check : Nat → Bool := fun _ => false

/-- Concrete best-move oracle for the forced-move witness. -/
def c8best : Nat → Option Unit := fun _ => some ()

/-- Concrete push for the forced-move witness. -/
def c8push : Nat → Unit → Nat := fun n _ => n + 1

/-- Witness for C8: a solver with a single legal move immediately after
the blunder whose continuation stays forced is rejected with reason
sequência forçada. -/
theorem c8_fully_forced_rejected_witness :
    forced_filter_reason c8turn c8legal c8check c8best c8push .white 0 =
      some "sequência forçada" :=
  c8_fully_forced_rejected c8turn c8legal c8check c8best c8push .white 0
    (fun _ _ => rfl)

end PuzzleExtractor
